import Mathlib

/-!
Shallow embedding of `src/github-artifact-download.py`: a small pipeline that
resolves a GitHub Actions workflow run and artifact through paginated API
results, downloads the artifact and guards against re-downloading via a local
cache file holding the last downloaded artifact id.

Remote pages are modelled as the list of decoded JSON pages that `get_paged`
would yield; each page carries its list of records.  Python optional string
arguments are `Option String`, with Python truthiness (`None` and `""` are
falsy) made explicit where the source relies on it.
-/

namespace GithubArtifactDownload

/-- Python truthiness of an optional string: `None` and the empty string are
falsy, every other string is truthy. -/
def pyTruthy : Option String → Bool
  | none => false
  | some s => !(s == "")

/-- A workflow run record, with the fields the script reads
(lines 59-62, 105-110 of the source). -/
structure WorkflowRun where
  id : Nat
  name : String
  conclusion : String
  head_branch : String
  event : String
  created_at : String
deriving DecidableEq, Repr

/-- An artifact record, with the fields the script reads
(lines 70-86, 97-98 of the source). -/
structure Artifact where
  id : Nat
  name : String
  size_in_bytes : Nat
  created_at : String
  archive_download_url : String
deriving DecidableEq, Repr

/-- The `continue` condition of lines 106-108:
the run is rejected when its conclusion is not success, or a truthy workflow
name filter differs from the run name, or a truthy branch filter differs from
the head branch. -/
def runRejected (name branch : Option String) (run : WorkflowRun) : Bool :=
  run.conclusion != "success" ||
    (pyTruthy name && run.name != name.getD "") ||
    (pyTruthy branch && run.head_branch != branch.getD "")

/-- `find_latest_successful_workflow_run` (lines 102-110): scan the pages in
order, inside each page scan the runs in order, and return the first run that
is not rejected; `none` when all pages are exhausted. -/
def find_latest_successful_workflow_run
    (pages : List (List WorkflowRun)) (name branch : Option String) :
    Option WorkflowRun :=
  match pages with
  | [] => none
  | page :: rest =>
    match page.find? (fun run => !(runRejected name branch run)) with
    | some run => some run
    | none => find_latest_successful_workflow_run rest name branch

/-- The artifact filter of lines 98 and 117: `name is None or
artifact.name == name`.  Note the `is None` test: an empty-string filter is a
literal filter here, unlike the truthiness tests of the run selector. -/
def artifactAccepted (name : Option String) (artifact : Artifact) : Bool :=
  match name with
  | none => true
  | some s => artifact.name == s

/-- `find_latest_repo_artifact` (lines 94-99): scan the artifact pages of the
repository listing in order and return the first accepted artifact. -/
def find_latest_repo_artifact
    (pages : List (List Artifact)) (name : Option String) : Option Artifact :=
  match pages with
  | [] => none
  | page :: rest =>
    match page.find? (artifactAccepted name) with
    | some artifact => some artifact
    | none => find_latest_repo_artifact rest name

/-- `find_workflow_run_artifact` (lines 113-118): same scan as
`find_latest_repo_artifact`, over the pages of the run-scoped artifact
listing. -/
def find_workflow_run_artifact
    (pages : List (List Artifact)) (name : Option String) : Option Artifact :=
  match pages with
  | [] => none
  | page :: rest =>
    match page.find? (artifactAccepted name) with
    | some artifact => some artifact
    | none => find_workflow_run_artifact rest name

/- Helper lemmas: each page-wise scan equals one `find?` over the
concatenation of all records. -/

theorem find_run_eq_join (pages : List (List WorkflowRun))
    (name branch : Option String) :
    find_latest_successful_workflow_run pages name branch =
      pages.flatten.find? (fun run => !(runRejected name branch run)) := by
  induction pages with
  | nil => rfl
  | cons page rest ih =>
    simp only [find_latest_successful_workflow_run, List.flatten_cons,
      List.find?_append]
    cases h : page.find? (fun run => !(runRejected name branch run)) with
    | none => simpa [h] using ih
    | some run => simp [h]

theorem find_repo_artifact_eq_join (pages : List (List Artifact))
    (name : Option String) :
    find_latest_repo_artifact pages name =
      pages.flatten.find? (artifactAccepted name) := by
  induction pages with
  | nil => rfl
  | cons page rest ih =>
    simp only [find_latest_repo_artifact, List.flatten_cons, List.find?_append]
    cases h : page.find? (artifactAccepted name) with
    | none => simpa [h] using ih
    | some artifact => simp [h]

theorem find_run_artifact_eq_join (pages : List (List Artifact))
    (name : Option String) :
    find_workflow_run_artifact pages name =
      pages.flatten.find? (artifactAccepted name) := by
  induction pages with
  | nil => rfl
  | cons page rest ih =>
    simp only [find_workflow_run_artifact, List.flatten_cons, List.find?_append]
    cases h : page.find? (artifactAccepted name) with
    | none => simpa [h] using ih
    | some artifact => simp [h]

/-- Result of one call to `download_file` (lines 121-131): how many progress
markers were printed, how many bytes were written to the destination file, and
the Python return value of the function (which has no `return` statement, so
it is always `None`, modelled as `none`). -/
structure DownloadResult where
  markers : Nat
  written : Nat
  ret : Option Nat
deriving DecidableEq, Repr

/-- The read loop of lines 123-129, over the sequence of chunks the successive
`res.read(1024 * 8)` calls return before end-of-stream.  Each iteration reads
a chunk, prints one marker (when verbose), breaks on an empty chunk and
otherwise writes the chunk.  Returns (markers printed, bytes written): when
the list is exhausted the next read returns the empty chunk, which still
prints a marker before the break. -/
def downloadLoop : List (List Nat) → Nat × Nat
  | [] => (1, 0)
  | chunk :: rest =>
    if chunk.isEmpty then (1, 0)
    else
      let p := downloadLoop rest
      (p.1 + 1, p.2 + chunk.length)

/-- `download_file` (lines 121-131): run the read loop; markers only appear
when `verbose` is set, and the function returns `None`. -/
def download_file (chunks : List (List Nat)) (verbose : Bool) : DownloadResult :=
  let p := downloadLoop chunks
  { markers := if verbose then p.1 else 0, written := p.2, ret := none }

/-- Line 51: `cache_file = Path(args.cache_file) if args.cache_file else None`.
An absent or empty `--cache-file` argument yields no cache path. -/
def cacheFilePath (arg : Option String) : Option String :=
  if pyTruthy arg then arg else none

/-- The cache-guard decision of line 73:
`cache_file and cache_file.exists() and cache_file.read_text() == str(artifact.id)`.
`cacheFile` is the optional cache path, `fsCache` the content of the cache
file if it exists (`none` when absent). -/
def should_skip (cacheFile : Option String) (fsCache : Option String)
    (artifactId : Nat) : Bool :=
  match cacheFile with
  | none => false
  | some _ =>
    match fsCache with
    | none => false
    | some s => s == toString artifactId

/-- The command-line arguments the pipeline reads (the argparse namespace of
lines 15-38).  Optional string options are `Option String`. -/
structure Args where
  repository : String
  token : Option String
  artifact : Option String
  filename : Option String
  workflow : Option String
  branch : Option String
  cacheFile : Option String
  traceback : Bool
  verbose : Bool

/-- The remote world the pipeline interacts with: the decoded pages each
listing endpoint would yield, the `GITHUB_TOKEN` environment variable, and
whether the artifact download stream fails mid-transfer. -/
structure Env where
  runPages : List (List WorkflowRun)
  runArtifactPages : Nat → List (List Artifact)
  repoArtifactPages : List (List Artifact)
  githubToken : Option String
  downloadFails : Bool

/-- Artifact resolution in `main` (lines 53-67): when `--workflow` is truthy,
find the latest successful run and look the artifact up among that run's
artifacts; otherwise scan the repository artifacts.  A missing run or a
missing artifact raises a `RuntimeError`. -/
def resolveArtifact (a : Args) (env : Env) : Except String Artifact :=
  if pyTruthy a.workflow then
    match find_latest_successful_workflow_run env.runPages a.workflow a.branch with
    | none => .error "No successful workflow run found"
    | some run =>
      match find_workflow_run_artifact (env.runArtifactPages run.id) a.artifact with
      | none => .error "Artifact not found!"
      | some artifact => .ok artifact
  else
    match find_latest_repo_artifact env.repoArtifactPages a.artifact with
    | none => .error "Artifact not found!"
    | some artifact => .ok artifact

deriving instance DecidableEq for Except

/-- Observable outcome of one `main` invocation: whether it returned normally
or raised, the content of the cache file afterwards, whether `download_file`
was called, and whether the resolved destination path was printed
(line 91). -/
structure MainResult where
  outcome : Except String Unit
  cacheAfter : Option String
  downloaded : Bool
  pathPrinted : Bool
deriving DecidableEq, Repr

/-- `main` (lines 41-91), over a remote environment and the initial cache-file
content (`none` when the cache file does not exist).  Order of effects as in
the source: token check, artifact resolution, cache-guard check (skip returns
early, before line 91), download (raising on stream failure), cache write,
path print. -/
def main (a : Args) (env : Env) (cache₀ : Option String) : MainResult :=
  if !(pyTruthy a.token || pyTruthy env.githubToken) then
    { outcome := .error "Please specify a GitHub personal access token",
      cacheAfter := cache₀, downloaded := false, pathPrinted := false }
  else
    let cacheFile := cacheFilePath a.cacheFile
    match resolveArtifact a env with
    | .error e =>
      { outcome := .error e, cacheAfter := cache₀,
        downloaded := false, pathPrinted := false }
    | .ok artifact =>
      if should_skip cacheFile cache₀ artifact.id then
        { outcome := .ok (), cacheAfter := cache₀,
          downloaded := false, pathPrinted := false }
      else if env.downloadFails then
        { outcome := .error "download failed", cacheAfter := cache₀,
          downloaded := true, pathPrinted := false }
      else
        { outcome := .ok (),
          cacheAfter := if cacheFile.isSome then some (toString artifact.id)
            else cache₀,
          downloaded := true, pathPrinted := true }

/-- Outcome of the `__main__` block (lines 159-167): either the process exits
with a code (0 on normal return of `main`, 1 after the one-line error print),
or the exception is re-raised when `--traceback` was given. -/
inductive ProcOutcome where
  | exited (code : Nat) (pathPrinted : Bool)
  | reraised (msg : String)
deriving DecidableEq, Repr

/-- The `__main__` block (lines 159-167): run `main`; on an exception either
re-raise (traceback mode) or print the error and exit 1; otherwise the
process terminates normally with exit code 0. -/
def processRun (a : Args) (env : Env) (cache₀ : Option String) : ProcOutcome :=
  match (main a env cache₀).outcome with
  | .ok _ => .exited 0 (main a env cache₀).pathPrinted
  | .error e => if a.traceback then .reraised e else .exited 1 false

/-- The selection predicate as the spec words it for the run selector:
`conclusion == success AND (workflow_name is unset OR run.name == workflow_name)
AND (branch is unset OR run.head_branch == branch)`, where an unset filter is
one that is not truthy. -/
def specRunMatch (name branch : Option String) (run : WorkflowRun) : Bool :=
  run.conclusion == "success" &&
    (!(pyTruthy name) || run.name == name.getD "") &&
    (!(pyTruthy branch) || run.head_branch == branch.getD "")

theorem not_runRejected_eq (name branch : Option String) (run : WorkflowRun) :
    (!(runRejected name branch run)) = specRunMatch name branch run := by
  cases h1 : (run.conclusion == "success") <;>
    cases h2 : pyTruthy name <;>
    cases h3 : pyTruthy branch <;>
    cases h4 : (run.name == name.getD "") <;>
    cases h5 : (run.head_branch == branch.getD "") <;>
    simp [runRejected, specRunMatch, h1, h2, h3, h4, h5, bne]

theorem runFilter_eq_specRunMatch (name branch : Option String) :
    (fun run => !(runRejected name branch run)) = specRunMatch name branch :=
  funext (not_runRejected_eq name branch)

end GithubArtifactDownload

namespace GithubArtifactDownload

/-- C1: the run selector returns the first record of the page sequence
satisfying conclusion == success and the optional workflow-name and branch
filters; a match short-circuits further pagination, a returned run always has
conclusion success, and exhaustion yields `none` (not an error). -/
theorem claim_C1 (pages : List (List WorkflowRun)) (name branch : Option String) :
    find_latest_successful_workflow_run pages name branch =
      pages.flatten.find? (specRunMatch name branch) ∧
    (∀ run, find_latest_successful_workflow_run pages name branch = some run →
      run.conclusion = "success") ∧
    (∀ run extra, find_latest_successful_workflow_run pages name branch = some run →
      find_latest_successful_workflow_run (pages ++ extra) name branch = some run) ∧
    ((∀ run ∈ pages.flatten, specRunMatch name branch run = false) →
      find_latest_successful_workflow_run pages name branch = none) := by
  have hjoin : find_latest_successful_workflow_run pages name branch =
      pages.flatten.find? (specRunMatch name branch) := by
    rw [find_run_eq_join, runFilter_eq_specRunMatch]
  refine ⟨hjoin, ?_, ?_, ?_⟩
  · intro run h
    rw [hjoin] at h
    have hp := List.find?_some h
    simp only [specRunMatch, Bool.and_eq_true, beq_iff_eq] at hp
    exact hp.1.1
  · intro run extra h
    rw [find_run_eq_join, runFilter_eq_specRunMatch] at h ⊢
    rw [List.flatten_append, List.find?_append, h]
    rfl
  · intro hall
    rw [hjoin]
    exact List.find?_eq_none.mpr fun x hx => by simp [hall x hx]

/-- Witness for C1 at a concrete page sequence: a failed run on the first page
is skipped, the successful run on the second page is returned, and its
conclusion is success. -/
theorem claim_C1_witness :
    find_latest_successful_workflow_run
      [[⟨1, "CI", "failure", "main", "push", "t1"⟩],
       [⟨2, "CI", "success", "main", "push", "t2"⟩]] none none =
      some ⟨2, "CI", "success", "main", "push", "t2"⟩ ∧
    (⟨2, "CI", "success", "main", "push", "t2"⟩ : WorkflowRun).conclusion =
      "success" := by
  refine ⟨by decide, ?_⟩
  exact (claim_C1
    [[⟨1, "CI", "failure", "main", "push", "t1"⟩],
     [⟨2, "CI", "success", "main", "push", "t2"⟩]] none none).2.1 _ (by decide)

/-- C2: both artifact selectors return the first record of the page sequence
accepted by the optional name filter; with filter `some x` a returned artifact
is named `x`, and with no filter the first record of the first non-empty page
is returned. -/
theorem claim_C2 (pages : List (List Artifact)) (name : Option String) :
    (find_latest_repo_artifact pages name =
        pages.flatten.find? (artifactAccepted name) ∧
      find_workflow_run_artifact pages name =
        pages.flatten.find? (artifactAccepted name)) ∧
    (∀ x a, find_latest_repo_artifact pages (some x) = some a → a.name = x) ∧
    (∀ x a, find_workflow_run_artifact pages (some x) = some a → a.name = x) ∧
    (find_latest_repo_artifact pages none = pages.flatten.head? ∧
      find_workflow_run_artifact pages none = pages.flatten.head?) := by
  have hhead : ∀ l : List Artifact, l.find? (artifactAccepted none) = l.head? := by
    intro l
    cases l with
    | nil => rfl
    | cons a l => simp [List.find?_cons, artifactAccepted]
  refine ⟨⟨find_repo_artifact_eq_join pages name,
    find_run_artifact_eq_join pages name⟩, ?_, ?_, ?_, ?_⟩
  · intro x a h
    rw [find_repo_artifact_eq_join] at h
    have hp := List.find?_some h
    simpa [artifactAccepted] using hp
  · intro x a h
    rw [find_run_artifact_eq_join] at h
    have hp := List.find?_some h
    simpa [artifactAccepted] using hp
  · rw [find_repo_artifact_eq_join, hhead]
  · rw [find_run_artifact_eq_join, hhead]

/-- Witness for C2 at a concrete page sequence: with filter "docs" the
matching artifact is returned and is indeed named "docs". -/
theorem claim_C2_witness :
    find_latest_repo_artifact [[⟨7, "docs", 12, "t", "u"⟩]] (some "docs") =
      some ⟨7, "docs", 12, "t", "u"⟩ ∧
    (⟨7, "docs", 12, "t", "u"⟩ : Artifact).name = "docs" := by
  refine ⟨by decide, ?_⟩
  exact (claim_C2 [[⟨7, "docs", 12, "t", "u"⟩]] (some "docs")).2.1 "docs" _
    (by decide)

/-- C6: pagination is transparent to selection — scanning the pages in order
equals one first-match scan of the concatenation of all records, for the run
selector and both artifact selectors. -/
theorem claim_C6 (rpages : List (List WorkflowRun))
    (apages bpages : List (List Artifact)) (name branch aname : Option String) :
    find_latest_successful_workflow_run rpages name branch =
      rpages.flatten.find? (fun run => !(runRejected name branch run)) ∧
    find_latest_repo_artifact apages aname =
      apages.flatten.find? (artifactAccepted aname) ∧
    find_workflow_run_artifact bpages aname =
      bpages.flatten.find? (artifactAccepted aname) :=
  ⟨find_run_eq_join rpages name branch,
    find_repo_artifact_eq_join apages aname,
    find_run_artifact_eq_join bpages aname⟩

/-- C10: the run selector treats an empty-string workflow-name or branch
filter as unset (Python truthiness), while the artifact selectors test the
filter against `None` only, so an empty-string artifact filter matches only
artifacts whose name is the empty string. -/
theorem claim_C10 :
    (∀ pages branch, find_latest_successful_workflow_run pages (some "") branch =
      find_latest_successful_workflow_run pages none branch) ∧
    (∀ pages name, find_latest_successful_workflow_run pages name (some "") =
      find_latest_successful_workflow_run pages name none) ∧
    (∀ pages a, find_latest_repo_artifact pages (some "") = some a →
      a.name = "") ∧
    (∀ pages a, find_workflow_run_artifact pages (some "") = some a →
      a.name = "") := by
  have hname : ∀ branch run, runRejected (some "") branch run =
      runRejected none branch run := by
    intro branch run
    simp [runRejected, pyTruthy]
  have hbranch : ∀ name run, runRejected name (some "") run =
      runRejected name none run := by
    intro name run
    simp [runRejected, pyTruthy]
  refine ⟨?_, ?_, ?_, ?_⟩
  · intro pages branch
    have hf : (fun run => !(runRejected (some "") branch run)) =
        (fun run => !(runRejected none branch run)) := by
      funext run
      rw [hname]
    rw [find_run_eq_join, find_run_eq_join, hf]
  · intro pages name
    have hf : (fun run => !(runRejected name (some "") run)) =
        (fun run => !(runRejected name none run)) := by
      funext run
      rw [hbranch]
    rw [find_run_eq_join, find_run_eq_join, hf]
  · intro pages a h
    rw [find_repo_artifact_eq_join] at h
    have hp := List.find?_some h
    simpa [artifactAccepted] using hp
  · intro pages a h
    rw [find_run_artifact_eq_join] at h
    have hp := List.find?_some h
    simpa [artifactAccepted] using hp

theorem should_skip_iff (cacheFile fsCache : Option String) (artifactId : Nat) :
    should_skip cacheFile fsCache artifactId = true ↔
      cacheFile.isSome = true ∧ fsCache = some (toString artifactId) := by
  cases cacheFile <;> cases fsCache <;> simp [should_skip]

theorem cacheFilePath_isSome (arg : Option String) :
    (cacheFilePath arg).isSome = pyTruthy arg := by
  cases arg with
  | none => rfl
  | some p =>
    by_cases hp : p = "" <;> simp [cacheFilePath, pyTruthy, hp]

/- Evaluation lemmas for `main`, one per control-flow branch. -/

theorem main_no_token (a : Args) (env : Env) (cache₀ : Option String)
    (h : (pyTruthy a.token || pyTruthy env.githubToken) = false) :
    main a env cache₀ =
      { outcome := .error "Please specify a GitHub personal access token",
        cacheAfter := cache₀, downloaded := false, pathPrinted := false } := by
  simp [main, h]

theorem main_resolve_error (a : Args) (env : Env) (cache₀ : Option String)
    (e : String) (htok : (pyTruthy a.token || pyTruthy env.githubToken) = true)
    (hres : resolveArtifact a env = .error e) :
    main a env cache₀ =
      { outcome := .error e, cacheAfter := cache₀,
        downloaded := false, pathPrinted := false } := by
  simp [main, htok, hres]

theorem main_skip (a : Args) (env : Env) (cache₀ : Option String)
    (art : Artifact) (htok : (pyTruthy a.token || pyTruthy env.githubToken) = true)
    (hres : resolveArtifact a env = .ok art)
    (hskip : should_skip (cacheFilePath a.cacheFile) cache₀ art.id = true) :
    main a env cache₀ =
      { outcome := .ok (), cacheAfter := cache₀,
        downloaded := false, pathPrinted := false } := by
  simp [main, htok, hres, hskip]

theorem main_download_fail (a : Args) (env : Env) (cache₀ : Option String)
    (art : Artifact) (htok : (pyTruthy a.token || pyTruthy env.githubToken) = true)
    (hres : resolveArtifact a env = .ok art)
    (hskip : should_skip (cacheFilePath a.cacheFile) cache₀ art.id = false)
    (hdf : env.downloadFails = true) :
    main a env cache₀ =
      { outcome := .error "download failed", cacheAfter := cache₀,
        downloaded := true, pathPrinted := false } := by
  simp [main, htok, hres, hskip, hdf]

theorem main_download_ok (a : Args) (env : Env) (cache₀ : Option String)
    (art : Artifact) (htok : (pyTruthy a.token || pyTruthy env.githubToken) = true)
    (hres : resolveArtifact a env = .ok art)
    (hskip : should_skip (cacheFilePath a.cacheFile) cache₀ art.id = false)
    (hdf : env.downloadFails = false) :
    main a env cache₀ =
      { outcome := .ok (),
        cacheAfter := if (cacheFilePath a.cacheFile).isSome then
          some (toString art.id) else cache₀,
        downloaded := true, pathPrinted := true } := by
  simp [main, htok, hres, hskip, hdf]

/-- Witness for C10 at a concrete page: the empty-string artifact filter does
select an artifact whose name is the empty string, whose name is then "". -/
theorem claim_C10_witness :
    find_latest_repo_artifact [[⟨3, "", 0, "t", "u"⟩]] (some "") =
      some ⟨3, "", 0, "t", "u"⟩ ∧
    (⟨3, "", 0, "t", "u"⟩ : Artifact).name = "" := by
  refine ⟨by decide, ?_⟩
  exact claim_C10.2.2.1 [[⟨3, "", 0, "t", "u"⟩]] _ (by decide)

/-- C3: the cache-guard decision is true iff a (truthy) cache path was
supplied, the cache file exists, and its entire content is the decimal string
of the artifact id; it is false when no cache path was given, the file is
absent, or the content differs. -/
theorem claim_C3 (arg fsCache : Option String) (artifactId : Nat) :
    (should_skip (cacheFilePath arg) fsCache artifactId = true ↔
      pyTruthy arg = true ∧ fsCache = some (toString artifactId)) ∧
    (pyTruthy arg = false →
      should_skip (cacheFilePath arg) fsCache artifactId = false) ∧
    (fsCache = none →
      should_skip (cacheFilePath arg) fsCache artifactId = false) ∧
    (∀ s, fsCache = some s → s ≠ toString artifactId →
      should_skip (cacheFilePath arg) fsCache artifactId = false) := by
  have hiff : should_skip (cacheFilePath arg) fsCache artifactId = true ↔
      pyTruthy arg = true ∧ fsCache = some (toString artifactId) := by
    rw [should_skip_iff, cacheFilePath_isSome]
  refine ⟨hiff, ?_, ?_, ?_⟩
  · intro h
    cases hss : should_skip (cacheFilePath arg) fsCache artifactId with
    | false => rfl
    | true => exact absurd (hiff.mp hss).1 (by simp [h])
  · intro h
    cases hss : should_skip (cacheFilePath arg) fsCache artifactId with
    | false => rfl
    | true =>
      have h2 := (hiff.mp hss).2
      rw [h] at h2
      exact Option.noConfusion h2
  · intro s hs hne
    cases hss : should_skip (cacheFilePath arg) fsCache artifactId with
    | false => rfl
    | true =>
      have h2 := (hiff.mp hss).2
      rw [hs] at h2
      exact absurd (Option.some.inj h2) hne

/-- Witness for C3 at concrete inputs: content "7" matches artifact id 7,
content "8" does not. -/
theorem claim_C3_witness :
    should_skip (cacheFilePath (some "cache.txt")) (some "7") 7 = true ∧
    should_skip (cacheFilePath (some "cache.txt")) (some "8") 7 = false :=
  ⟨(claim_C3 (some "cache.txt") (some "7") 7).1.mpr ⟨by decide, by decide⟩,
    (claim_C3 (some "cache.txt") (some "8") 7).2.2.2 "8" rfl (by decide)⟩

/-- C4: with a (truthy) cache path and a resolved artifact, the pipeline
skips only when the stored identifier equals the artifact's identifier, it
never downloads an artifact whose identifier is already stored, and after a
successful download a rerun against the resulting cache content does not
download again. -/
theorem claim_C4 (a : Args) (env : Env) (cache₀ : Option String)
    (art : Artifact) (hres : resolveArtifact a env = .ok art)
    (hcache : pyTruthy a.cacheFile = true) :
    (((main a env cache₀).outcome = .ok () ∧
        (main a env cache₀).downloaded = false) →
      cache₀ = some (toString art.id)) ∧
    (cache₀ = some (toString art.id) →
      (main a env cache₀).downloaded = false) ∧
    ((main a env cache₀).outcome = .ok () →
      (main a env cache₀).downloaded = true →
      (main a env (main a env cache₀).cacheAfter).downloaded = false) := by
  have hsome : (cacheFilePath a.cacheFile).isSome = true := by
    rw [cacheFilePath_isSome, hcache]
  have hskip_of_stored : ∀ c : Option String, c = some (toString art.id) →
      should_skip (cacheFilePath a.cacheFile) c art.id = true := by
    intro c hc
    exact (should_skip_iff _ _ _).mpr ⟨hsome, hc⟩
  cases htok : (pyTruthy a.token || pyTruthy env.githubToken) with
  | false =>
    rw [main_no_token a env cache₀ htok]
    exact ⟨fun h => absurd h.1 (by simp), fun _ => rfl, fun h => absurd h (by simp)⟩
  | true =>
    cases hskip : should_skip (cacheFilePath a.cacheFile) cache₀ art.id with
    | true =>
      rw [main_skip a env cache₀ art htok hres hskip]
      refine ⟨fun _ => ?_, fun _ => rfl, fun _ h => absurd h (by simp)⟩
      exact ((should_skip_iff _ _ _).mp hskip).2
    | false =>
      cases hdf : env.downloadFails with
      | true =>
        rw [main_download_fail a env cache₀ art htok hres hskip hdf]
        refine ⟨fun h => absurd h.1 (by simp), fun hc => ?_,
          fun h => absurd h (by simp)⟩
        rw [hskip_of_stored cache₀ hc] at hskip
        exact Bool.noConfusion hskip
      | false =>
        rw [main_download_ok a env cache₀ art htok hres hskip hdf]
        refine ⟨fun h => absurd h.2 (by simp), fun hc => ?_, fun _ _ => ?_⟩
        · rw [hskip_of_stored cache₀ hc] at hskip
          exact Bool.noConfusion hskip
        · simp only [hsome, if_true]
          rw [main_skip a env (some (toString art.id)) art htok hres
            (hskip_of_stored _ rfl)]

/-- Concrete arguments for pipeline witnesses: repository artifact listing,
no workflow filter, cache file configured. -/
def hitArgs : Args :=
  { repository := "acme/widget", token := some "tok", artifact := none,
    filename := none, workflow := none, branch := none,
    cacheFile := some "cache.txt", traceback := false, verbose := false }

/-- Concrete remote environment: one repository artifact with id 7, download
succeeds. -/
def hitEnv : Env :=
  { runPages := [], runArtifactPages := fun _ => [],
    repoArtifactPages := [[⟨7, "docs", 12, "t", "u"⟩]],
    githubToken := none, downloadFails := false }

/-- Same environment but the download stream fails. -/
def failEnv : Env :=
  { runPages := [], runArtifactPages := fun _ => [],
    repoArtifactPages := [[⟨7, "docs", 12, "t", "u"⟩]],
    githubToken := none, downloadFails := true }

/-- Witness for C4: with cache content "7" and resolved artifact id 7 the
pipeline does not download. -/
theorem claim_C4_witness :
    resolveArtifact hitArgs hitEnv = Except.ok ⟨7, "docs", 12, "t", "u"⟩ ∧
    pyTruthy hitArgs.cacheFile = true ∧
    (main hitArgs hitEnv (some "7")).downloaded = false := by
  refine ⟨by decide, by decide, ?_⟩
  exact (claim_C4 hitArgs hitEnv (some "7") ⟨7, "docs", 12, "t", "u"⟩
    (by decide) (by decide)).2.1 (by decide)

/-- C5: the cache file is never changed when the download fails, and any
change of the cache content happens only in a run that returned success after
performing the download. -/
theorem claim_C5 (a : Args) (env : Env) (cache₀ : Option String) :
    (env.downloadFails = true → (main a env cache₀).cacheAfter = cache₀) ∧
    ((main a env cache₀).cacheAfter ≠ cache₀ →
      (main a env cache₀).outcome = .ok () ∧
      (main a env cache₀).downloaded = true) := by
  cases htok : (pyTruthy a.token || pyTruthy env.githubToken) with
  | false =>
    rw [main_no_token a env cache₀ htok]
    exact ⟨fun _ => rfl, fun h => absurd rfl h⟩
  | true =>
    cases hres : resolveArtifact a env with
    | error e =>
      rw [main_resolve_error a env cache₀ e htok hres]
      exact ⟨fun _ => rfl, fun h => absurd rfl h⟩
    | ok art =>
      cases hskip : should_skip (cacheFilePath a.cacheFile) cache₀ art.id with
      | true =>
        rw [main_skip a env cache₀ art htok hres hskip]
        exact ⟨fun _ => rfl, fun h => absurd rfl h⟩
      | false =>
        cases hdf : env.downloadFails with
        | true =>
          rw [main_download_fail a env cache₀ art htok hres hskip hdf]
          exact ⟨fun _ => rfl, fun h => absurd rfl h⟩
        | false =>
          rw [main_download_ok a env cache₀ art htok hres hskip hdf]
          exact ⟨fun h => Bool.noConfusion h, fun _ => ⟨rfl, rfl⟩⟩

/-- Witness for C5: a failing download leaves the absent cache file absent;
a successful run that changed the cache content downloaded and succeeded. -/
theorem claim_C5_witness :
    (main hitArgs failEnv none).cacheAfter = none ∧
    (main hitArgs hitEnv none).outcome = Except.ok () ∧
    (main hitArgs hitEnv none).downloaded = true :=
  ⟨(claim_C5 hitArgs failEnv none).1 rfl,
    (claim_C5 hitArgs hitEnv none).2 (by decide)⟩

/-- Counterexample to C7: a cache hit returns from `main` before line 91, so
the process exits 0 without printing the resolved download path. -/
theorem claim_C7_counterexample :
    (main hitArgs hitEnv (some "7")).outcome = Except.ok () ∧
    (main hitArgs hitEnv (some "7")).pathPrinted = false ∧
    processRun hitArgs hitEnv (some "7") = ProcOutcome.exited 0 false := by
  decide

/-- C7 (amended): every successful invocation exits with code 0, but the
resolved download path is printed iff a download was performed — a cache hit
exits 0 with no path printed; every raised failure without traceback mode
exits with code 1. -/
theorem claim_C7_amended (a : Args) (env : Env) (cache₀ : Option String) :
    ((main a env cache₀).outcome = .ok () →
      processRun a env cache₀ = .exited 0 (main a env cache₀).pathPrinted ∧
      (main a env cache₀).pathPrinted = (main a env cache₀).downloaded) ∧
    (∀ e, (main a env cache₀).outcome = .error e → a.traceback = false →
      processRun a env cache₀ = .exited 1 false) := by
  have hpd : (main a env cache₀).outcome = .ok () →
      (main a env cache₀).pathPrinted = (main a env cache₀).downloaded := by
    cases htok : (pyTruthy a.token || pyTruthy env.githubToken) with
    | false =>
      rw [main_no_token a env cache₀ htok]
      intro h
      exact absurd h (by simp)
    | true =>
      cases hres : resolveArtifact a env with
      | error e =>
        rw [main_resolve_error a env cache₀ e htok hres]
        intro h
        exact absurd h (by simp)
      | ok art =>
        cases hskip : should_skip (cacheFilePath a.cacheFile) cache₀ art.id with
        | true =>
          rw [main_skip a env cache₀ art htok hres hskip]
          intro _
          rfl
        | false =>
          cases hdf : env.downloadFails with
          | true =>
            rw [main_download_fail a env cache₀ art htok hres hskip hdf]
            intro h
            exact absurd h (by simp)
          | false =>
            rw [main_download_ok a env cache₀ art htok hres hskip hdf]
            intro _
            rfl
  refine ⟨fun h => ⟨by simp [processRun, h], hpd h⟩,
    fun e h htb => by simp [processRun, h, htb]⟩

/-- Witness for C7 (amended): a failing download exits 1; a successful run
exits 0. -/
theorem claim_C7_witness :
    processRun hitArgs failEnv none = ProcOutcome.exited 1 false ∧
    processRun hitArgs hitEnv none =
      ProcOutcome.exited 0 (main hitArgs hitEnv none).pathPrinted :=
  ⟨(claim_C7_amended hitArgs failEnv none).2 "download failed" (by decide) rfl,
    ((claim_C7_amended hitArgs hitEnv none).1 (by decide)).1⟩

theorem downloadLoop_spec (chunks : List (List Nat))
    (h : ∀ c ∈ chunks, c.isEmpty = false) :
    downloadLoop chunks = (chunks.length + 1, (chunks.map List.length).sum) := by
  induction chunks with
  | nil => rfl
  | cons c rest ih =>
    have hc : c.isEmpty = false := h c (by simp)
    have hrest := ih (fun x hx => h x (by simp [hx]))
    simp [downloadLoop, hc, hrest, Prod.ext_iff]
    omega

/-- Counterexample to C8: `download_file` has no return statement, so it
returns `None` rather than the byte count of the data written. -/
theorem claim_C8_counterexample :
    ((download_file [[0, 1, 2]] false).ret ==
      some (download_file [[0, 1, 2]] false).written) = false ∧
    (download_file [[0, 1, 2]] false).written = 3 := by
  decide

/-- C8 (amended): for every completed download, `download_file` writes every
byte received before end-of-stream to the destination, but returns `None` —
no byte count is reported to the caller. -/
theorem claim_C8_amended (chunks : List (List Nat)) (verbose : Bool)
    (h : ∀ c ∈ chunks, c.isEmpty = false) :
    (download_file chunks verbose).ret = none ∧
    (download_file chunks verbose).written = (chunks.map List.length).sum := by
  refine ⟨rfl, ?_⟩
  simp [download_file, downloadLoop_spec chunks h]

/-- Witness for C8 (amended) at a concrete stream of two chunks. -/
theorem claim_C8_witness :
    (download_file [[0, 1, 2], [4]] true).ret = none ∧
    (download_file [[0, 1, 2], [4]] true).written =
      ([[0, 1, 2], [4]].map List.length).sum :=
  claim_C8_amended [[0, 1, 2], [4]] true (by decide)

/-- Counterexample to C9: a one-chunk stream produces two progress markers,
not one — the final empty read that signals end-of-stream also prints a
marker before the loop breaks. -/
theorem claim_C9_counterexample :
    ((download_file [[1]] true).markers == 1) = false ∧
    (download_file [[1]] true).markers = 2 := by
  decide

/-- C9 (amended): with progress reporting enabled, `download_file` emits one
marker per read call — the number of non-empty chunks plus one, the extra
marker coming from the final empty read that signals end-of-stream. -/
theorem claim_C9_amended (chunks : List (List Nat))
    (h : ∀ c ∈ chunks, c.isEmpty = false) :
    (download_file chunks true).markers = chunks.length + 1 := by
  simp [download_file, downloadLoop_spec chunks h]

/-- Witness for C9 (amended) at a concrete stream of two chunks. -/
theorem claim_C9_witness :
    (download_file [[1], [2, 3]] true).markers = [[1], [2, 3]].length + 1 :=
  claim_C9_amended [[1], [2, 3]] (by decide)

end GithubArtifactDownload
